import Mathlib

/-!
Shallow embedding of the go-firebase-api repository: the role type, the user
model, the API error taxonomy, the user repository and service operations, the
JWT issuance/verification logic, and the auth and role middlewares, translated
from the Go source (the role-aware version of the auth package is the canonical
one). Firestore transport and JWT cryptography are modelled symbolically: the
backend outcome of a document insertion is a parameter, and a token is either a
signed claims record (carrying the signing secret) or a malformed blob.
-/

/-- `role.Role` from internal/role: a string-typed role. -/
abbrev Role := String

namespace Role

/-- The `Admin` role constant. -/
def Admin : Role := "admin"

/-- The `User` role constant. -/
def User : Role := "user"

/-- `Role.IsValid` from internal/role: membership in the fixed role set. -/
def IsValid (r : Role) : Bool :=
  r == Admin || r == User

end Role

/-- `model.User` from internal/model/user.go. The `id` field carries the
`firestore:"-"` tag: it is never written into the document data. -/
structure User where
  id : String
  name : String
  email : String
  role : Role
  deriving Repr, DecidableEq

/-- `apierror.APIError`: HTTP status code plus message. -/
structure APIError where
  code : Nat
  message : String
  deriving Repr, DecidableEq

/-- `apierror.NewAPIError`. -/
def NewAPIError (code : Nat) (message : String) : APIError :=
  ⟨code, message⟩

/-- `apierror.NewInternalServerError`: a 500 error, with a default message when
none is provided. -/
def NewInternalServerError (message : String) : APIError :=
  if message = "" then NewAPIError 500 "An unexpected internal error occurred"
  else NewAPIError 500 message

/-- `apierror.NewBadRequestError`: a 400 error, with a default message when
none is provided. -/
def NewBadRequestError (message : String) : APIError :=
  if message = "" then NewAPIError 400 "Bad request"
  else NewAPIError 400 message

/-- The document data handed to `Collection("users").Add` by
`userRepository.CreateUser`: exactly the name, email and role fields. -/
structure UserDoc where
  name : String
  email : String
  role : Role
  deriving Repr, DecidableEq

/-- Outcome of the Firestore `Add` call: a transport failure, or the
auto-generated document identifier. -/
abbrev AddOutcome := Except Unit String

/-- `userRepository.CreateUser`: builds the document map from the name, email
and role fields, sends it to the backend, and on success returns the input
user with the auto-generated document ID set. The second component records
the document data passed to `Add` (`none` would mean `Add` was never called;
`CreateUser` always calls it). -/
def CreateUser (addOutcome : AddOutcome) (user : User) :
    Except APIError User × Option UserDoc :=
  (match addOutcome with
   | .error _ => .error (NewInternalServerError "Failed to create user in database")
   | .ok docID => .ok { user with id := docID },
   some ⟨user.name, user.email, user.role⟩)

/-- `userService.RegisterUser`: always assigns the default `user` role for
public registrations, then delegates to the store. -/
def RegisterUser (addOutcome : AddOutcome) (user : User) :
    Except APIError User × Option UserDoc :=
  CreateUser addOutcome { user with role := Role.User }

/-- `userService.AdminRegisterUser`: defaults an empty role to `user`,
validates the role, then delegates to the store; an invalid role yields a
BadRequest error without any store call. -/
def AdminRegisterUser (addOutcome : AddOutcome) (user : User) :
    Except APIError User × Option UserDoc :=
  let user := if user.role = "" then { user with role := Role.User } else user
  if Role.IsValid user.role then CreateUser addOutcome user
  else (.error (NewBadRequestError "Invalid role specified"), none)

/-- A stored Firestore document as seen by `GetAllUsers`: its reference ID and
the result of `DataTo` (`none` models a decode failure). -/
structure StoredDoc where
  refID : String
  decoded : Option UserDoc
  deriving Repr, DecidableEq

/-- The user built from a successfully decoded document: `DataTo` fills name,
email and role, then the code sets `user.ID = doc.Ref.ID`. -/
def decodeDoc (d : StoredDoc) : Option User :=
  d.decoded.map fun data => ⟨d.refID, data.name, data.email, data.role⟩

/-- The cursor-draining loop of `userRepository.GetAllUsers`, carrying the
accumulated users list. -/
def getAllUsersLoop (acc : List User) : List StoredDoc → Except APIError (List User)
  | [] => .ok acc
  | d :: rest =>
    match d.decoded with
    | none => .error (NewInternalServerError "Failed to process user data")
    | some data =>
      getAllUsersLoop (acc ++ [⟨d.refID, data.name, data.email, data.role⟩]) rest

/-- `userRepository.GetAllUsers`: drains the cursor, failing with an internal
error as soon as one document fails to decode. -/
def GetAllUsers (docs : List StoredDoc) : Except APIError (List User) :=
  getAllUsersLoop [] docs

/-- `auth.JWTClaims` (role-aware version): user ID, email, role, and the
registered expiry, issued-at and issuer claims. Times are unix seconds. -/
structure JWTClaims where
  userID : String
  email : String
  role : Role
  expiresAt : Int
  issuedAt : Int
  issuer : String
  deriving Repr, DecidableEq

/-- A token: either a claims record signed with a secret, or a malformed
blob that fails parsing. -/
inductive Token where
  | signed (claims : JWTClaims) (secret : String)
  | malformed (blob : String)
  deriving Repr, DecidableEq

/-- `auth.GenerateJWT` (role-aware version): fails when the signing secret is
unset; otherwise issues a token whose expiry is 24 hours after `now`, with
issuer `go-firebase-api`. -/
def GenerateJWT (secretKey : String) (now : Int) (userID email : String)
    (userRole : Role) : Except String Token :=
  if secretKey = "" then .error "JWT_SECRET_KEY environment variable not set"
  else .ok (.signed ⟨userID, email, userRole, now + 24 * 3600, now, "go-firebase-api"⟩ secretKey)

/-- `jwt.ParseWithClaims` plus the `token.Valid` check, as used by
`AuthMiddleware`: parsing succeeds and the token is valid exactly when the
token is well-formed, its signature matches the verification key, and the
current time is before its expiry. -/
def verifyToken (secretKey : String) (now : Int) : Token → Option JWTClaims
  | .malformed _ => none
  | .signed claims secret =>
    if secret = secretKey ∧ now < claims.expiresAt then some claims else none

/-- Helper for `splitSpace`, walking the character list with the current
field accumulated in reverse. -/
def splitSpaceAux : List Char → List Char → List String
  | [], cur => [String.mk cur.reverse]
  | c :: rest, cur =>
    if c = ' ' then String.mk cur.reverse :: splitSpaceAux rest []
    else splitSpaceAux rest (c :: cur)

/-- Go's `strings.Split(s, " ")` as used by the middleware: splits at every
single space, keeping empty fields, so `"Bearer  x"` gives three parts and
`""` gives one empty part. -/
def splitSpace (s : String) : List String :=
  splitSpaceAux s.data []

/-- Outcome of the auth middleware on one request: abort with a status and
error body, or continue carrying the values stored in the request context. -/
inductive AuthResult where
  | reject (status : Nat) (message : String)
  | proceed (userID : String) (userRole : Role)
  deriving Repr, DecidableEq

/-- `auth.AuthMiddleware` (role-aware version). `decode` models JWT string
parsing; an absent Authorization header reads as the empty string, as
`c.GetHeader` does. -/
def AuthMiddleware (decode : String → Token) (secretKey : String) (now : Int)
    (authHeader : String) : AuthResult :=
  if authHeader = "" then
    .reject 401 "Authorization header is required"
  else
    let parts := splitSpace authHeader
    if parts.length ≠ 2 ∨ parts.headD "" ≠ "Bearer" then
      .reject 401 "Authorization header format must be Bearer \x7btoken\x7d"
    else
      match verifyToken secretKey now (decode (parts.getD 1 "")) with
      | none => .reject 401 "Invalid or expired token"
      | some claims => .proceed claims.userID claims.role

/-- A value stored in the gin request context: Go stores `interface` values,
so the dynamic type matters for the later type assertion. -/
inductive CtxValue where
  | vString (s : String)
  | vRole (r : Role)
  deriving Repr, DecidableEq

/-- The request context after `AuthMiddleware` continues: `userID` holds a
string and `userRole` holds a `role.Role` value. -/
def authCtx (userID : String) (userRole : Role) : String → Option CtxValue :=
  fun key =>
    if key = "userID" then some (.vString userID)
    else if key = "userRole" then some (.vRole userRole)
    else none

/-- Outcome of the role middleware: abort or continue. -/
inductive RoleResult where
  | reject (status : Nat) (message : String)
  | proceed
  deriving Repr, DecidableEq

/-- The status code of a role-middleware outcome, `none` when it continued. -/
def RoleResult.code : RoleResult → Option Nat
  | .reject c _ => some c
  | .proceed => none

/-- `auth.RoleAuthMiddleware`: reads `userRole` from the context, rejects 403
when absent, rejects 500 when the value is not of the role type, rejects 403
on a role mismatch, and continues on an exact match. -/
def RoleAuthMiddleware (requiredRole : String) (ctx : String → Option CtxValue) :
    RoleResult :=
  match ctx "userRole" with
  | none => .reject 403 "User role not found in token"
  | some v =>
    match v with
    | .vRole r =>
      if r ≠ requiredRole then
        .reject 403 "You do not have permission to access this resource"
      else .proceed
    | _ => .reject 500 "User role in context has an invalid type"

/-- The composed pipeline on the admin routes: `AuthMiddleware` then
`RoleAuthMiddleware`, the second reading the context the first populated. -/
def adminPipeline (decode : String → Token) (secretKey : String) (now : Int)
    (authHeader : String) (requiredRole : String) : RoleResult :=
  match AuthMiddleware decode secretKey now authHeader with
  | .reject s m => .reject s m
  | .proceed uid r => RoleAuthMiddleware requiredRole (authCtx uid r)

/-- The validation of `User.Name` by its struct tags
`validate:"required,min=2,max=100"`: the field must be present (non-empty)
and its rune count must lie between 2 and 100. -/
def validateName (name : String) : Bool :=
  name ≠ "" && 2 ≤ name.length && name.length ≤ 100

/-! ## Theorems -/

/-- C1: every user passed to public registration (`RegisterUser`) reaches the
store's `Create` with role exactly `user`: the document handed to the backend
carries role `"user"` no matter what role the client supplied. -/
theorem registerUser_forces_user_role (addOutcome : AddOutcome) (u : User) :
    (RegisterUser addOutcome u).2 = some ⟨u.name, u.email, Role.User⟩ := by
  cases addOutcome <;> rfl

/-- C2: `AdminRegisterUser` defaults an empty role to `user`; a non-empty
role outside the valid set yields a 400 BadRequest error and the store is
never invoked (no document is sent); a valid role is delegated unchanged. -/
theorem adminRegisterUser_role_policy (addOutcome : AddOutcome) (u : User) :
    (u.role = "" →
      AdminRegisterUser addOutcome u
        = CreateUser addOutcome { u with role := Role.User })
    ∧ (u.role ≠ "" → Role.IsValid u.role = false →
      AdminRegisterUser addOutcome u
        = (.error (NewBadRequestError "Invalid role specified"), none))
    ∧ (u.role ≠ "" → Role.IsValid u.role = true →
      AdminRegisterUser addOutcome u = CreateUser addOutcome u) := by
  refine ⟨fun he => ?_, fun hne hv => ?_, fun hne hv => ?_⟩
  · simp [AdminRegisterUser, he, Role.IsValid, Role.User]
  · simp [AdminRegisterUser, hne, hv]
  · simp [AdminRegisterUser, hne, hv]

/-- Witness for C2 at concrete inputs: an empty role delegates with role
`user`; the role `"superadmin"` is rejected with a 400 and no store call;
the role `"admin"` is delegated unchanged. -/
theorem adminRegisterUser_role_policy_witness :
    AdminRegisterUser (.ok "d1") ⟨"", "Ann", "ann@x.com", ""⟩
      = CreateUser (.ok "d1") ⟨"", "Ann", "ann@x.com", Role.User⟩
    ∧ AdminRegisterUser (.ok "d1") ⟨"", "Ann", "ann@x.com", "superadmin"⟩
      = (.error (NewBadRequestError "Invalid role specified"), none)
    ∧ AdminRegisterUser (.ok "d1") ⟨"", "Ann", "ann@x.com", "admin"⟩
      = CreateUser (.ok "d1") ⟨"", "Ann", "ann@x.com", "admin"⟩ :=
  ⟨(adminRegisterUser_role_policy (.ok "d1") ⟨"", "Ann", "ann@x.com", ""⟩).1 rfl,
   (adminRegisterUser_role_policy (.ok "d1") ⟨"", "Ann", "ann@x.com", "superadmin"⟩).2.1
     (by decide) (by decide),
   (adminRegisterUser_role_policy (.ok "d1") ⟨"", "Ann", "ann@x.com", "admin"⟩).2.2
     (by decide) (by decide)⟩

/-- C10: on a successful insertion, `CreateUser` returns the input user with
only the ID replaced by the generated document ID, and the document written
holds exactly the name, email and role — the client-supplied ID does not
appear in it and has no effect on it. -/
theorem createUser_frame (docID : String) (u : User) :
    CreateUser (.ok docID) u
      = (.ok { u with id := docID }, some ⟨u.name, u.email, u.role⟩)
    ∧ ∀ addOutcome : AddOutcome, ∀ otherID : String,
      (CreateUser addOutcome { u with id := otherID }).2
        = (CreateUser addOutcome u).2 := by
  exact ⟨rfl, fun addOutcome otherID => by cases addOutcome <;> rfl⟩

/-- C3: round-trip of token issuance and verification. With the signing
secret set, `GenerateJWT` succeeds, and verifying the issued token with the
same secret before its expiry yields claims whose user ID, email and role
equal the inputs. -/
theorem generateJWT_verify_roundtrip (secretKey : String) (t0 now : Int)
    (uid email : String) (r : Role)
    (hs : secretKey ≠ "") (hn : now < t0 + 24 * 3600) :
    ∃ tok, GenerateJWT secretKey t0 uid email r = .ok tok
      ∧ verifyToken secretKey now tok
          = some ⟨uid, email, r, t0 + 24 * 3600, t0, "go-firebase-api"⟩ := by
  refine ⟨.signed ⟨uid, email, r, t0 + 24 * 3600, t0, "go-firebase-api"⟩ secretKey, ?_, ?_⟩
  · simp [GenerateJWT, hs]
  · rw [verifyToken, if_pos ⟨rfl, hn⟩]

/-- Witness for C3 at a concrete secret, issuance time 0, verification time
100, and concrete identity. -/
theorem generateJWT_verify_roundtrip_witness :
    ∃ tok, GenerateJWT "s3cret" 0 "u1" "ann@x.com" "user" = .ok tok
      ∧ verifyToken "s3cret" 100 tok
          = some ⟨"u1", "ann@x.com", "user", 0 + 24 * 3600, 0, "go-firebase-api"⟩ :=
  generateJWT_verify_roundtrip "s3cret" 0 100 "u1" "ann@x.com" "user"
    (by decide) (by decide)

/-- C6: every issued token carries an expiry exactly 24 hours after its
issued-at time, and verification at any time strictly after that expiry
fails, whatever key is used to verify. -/
theorem token_expires_after_24h (secretKey : String) (t0 : Int)
    (uid email : String) (r : Role) (tok : Token)
    (h : GenerateJWT secretKey t0 uid email r = .ok tok) :
    (∃ claims secret, tok = .signed claims secret
      ∧ claims.expiresAt = claims.issuedAt + 24 * 3600 ∧ claims.issuedAt = t0)
    ∧ ∀ verifyKey : String, ∀ now : Int, t0 + 24 * 3600 < now →
        verifyToken verifyKey now tok = none := by
  by_cases hs : secretKey = ""
  · simp [GenerateJWT, hs] at h
  · simp [GenerateJWT, hs] at h
    subst h
    refine ⟨⟨_, _, rfl, by simp, rfl⟩, ?_⟩
    intro verifyKey now hnow
    rw [verifyToken]
    split
    · rename_i hc
      exfalso
      obtain ⟨-, hlt⟩ := hc
      simp only at hlt
      omega
    · rfl

/-- Witness for C6: the token issued at time 0 with secret `s3cret` has
expiry 86400 and fails verification at time 90000. -/
theorem token_expires_after_24h_witness :
    (∃ claims secret,
       (Token.signed ⟨"u1", "ann@x.com", "user", 0 + 24 * 3600, 0, "go-firebase-api"⟩ "s3cret")
         = .signed claims secret
       ∧ claims.expiresAt = claims.issuedAt + 24 * 3600 ∧ claims.issuedAt = 0)
    ∧ ∀ verifyKey : String, ∀ now : Int, 0 + 24 * 3600 < now →
        verifyToken verifyKey now
          (Token.signed ⟨"u1", "ann@x.com", "user", 0 + 24 * 3600, 0, "go-firebase-api"⟩ "s3cret")
          = none :=
  token_expires_after_24h "s3cret" 0 "u1" "ann@x.com" "user" _ (by simp [GenerateJWT])

/-- C4: the auth middleware rejects with 401 when the header is absent
(empty), when it is not exactly two space-separated parts starting with
`Bearer`, and when the token is malformed, wrongly signed, or expired; in
the remaining case it continues, attaching the claims identity and role.
The last conjunct characterises token invalidity as exactly those three
token-level failures. -/
theorem authMiddleware_request_cases (decode : String → Token) (secretKey : String)
    (now : Int) (authHeader : String) :
    (authHeader = "" →
      AuthMiddleware decode secretKey now authHeader
        = .reject 401 "Authorization header is required")
    ∧ (authHeader ≠ "" →
        ((splitSpace authHeader).length ≠ 2 ∨ (splitSpace authHeader).headD "" ≠ "Bearer") →
      AuthMiddleware decode secretKey now authHeader
        = .reject 401 "Authorization header format must be Bearer \x7btoken\x7d")
    ∧ (authHeader ≠ "" → (splitSpace authHeader).length = 2 →
        (splitSpace authHeader).headD "" = "Bearer" →
        verifyToken secretKey now (decode ((splitSpace authHeader).getD 1 "")) = none →
      AuthMiddleware decode secretKey now authHeader
        = .reject 401 "Invalid or expired token")
    ∧ (∀ claims, authHeader ≠ "" → (splitSpace authHeader).length = 2 →
        (splitSpace authHeader).headD "" = "Bearer" →
        verifyToken secretKey now (decode ((splitSpace authHeader).getD 1 "")) = some claims →
      AuthMiddleware decode secretKey now authHeader
        = .proceed claims.userID claims.role)
    ∧ (∀ tok, verifyToken secretKey now tok = none ↔
        ((∃ b, tok = .malformed b)
          ∨ (∃ c s, tok = .signed c s ∧ s ≠ secretKey)
          ∨ (∃ c s, tok = .signed c s ∧ ¬ now < c.expiresAt))) := by
  have hfmt : ∀ h2 : (splitSpace authHeader).length = 2,
      (splitSpace authHeader).headD "" = "Bearer" →
      ¬ ((splitSpace authHeader).length ≠ 2 ∨ (splitSpace authHeader).headD "" ≠ "Bearer") :=
    fun h2 h3 hor => hor.elim (fun hA => hA h2) (fun hB => hB h3)
  refine ⟨fun h1 => ?_, fun h1 h2 => ?_, fun h1 h2 h3 h4 => ?_,
    fun claims h1 h2 h3 h4 => ?_, fun tok => ?_⟩
  · simp only [AuthMiddleware]
    rw [if_pos h1]
  · simp only [AuthMiddleware]
    rw [if_neg h1, if_pos h2]
  · simp only [AuthMiddleware]
    rw [if_neg h1, if_neg (hfmt h2 h3), h4]
  · simp only [AuthMiddleware]
    rw [if_neg h1, if_neg (hfmt h2 h3), h4]
  · cases tok with
    | malformed b => simp [verifyToken]
    | signed c s =>
      simp only [verifyToken]
      constructor
      · intro hnone
        by_cases hsec : s = secretKey
        · by_cases hexp : now < c.expiresAt
          · rw [if_pos ⟨hsec, hexp⟩] at hnone
            exact absurd hnone (by simp)
          · exact Or.inr (Or.inr ⟨c, s, rfl, hexp⟩)
        · exact Or.inr (Or.inl ⟨c, s, rfl, hsec⟩)
      · rintro (⟨b, hb⟩ | ⟨c2, s2, hcs, hsec⟩ | ⟨c2, s2, hcs, hexp⟩)
        · exact absurd hb (by simp)
        · rw [if_neg]
          rintro ⟨h, -⟩
          cases hcs
          exact hsec h
        · rw [if_neg]
          rintro ⟨-, h⟩
          cases hcs
          exact hexp h

/-- Witness for C4: concrete requests hitting each branch — empty header,
header not in Bearer form, malformed token, and a valid signed token. -/
theorem authMiddleware_request_cases_witness :
    AuthMiddleware (fun _ => .malformed "x") "s3cret" 0 ""
      = .reject 401 "Authorization header is required"
    ∧ AuthMiddleware (fun _ => .malformed "x") "s3cret" 0 "Token abc"
      = .reject 401 "Authorization header format must be Bearer \x7btoken\x7d"
    ∧ AuthMiddleware (fun _ => .malformed "x") "s3cret" 0 "Bearer abc"
      = .reject 401 "Invalid or expired token"
    ∧ AuthMiddleware
        (fun _ => .signed ⟨"u1", "ann@x.com", "user", 100, 0, "go-firebase-api"⟩ "s3cret")
        "s3cret" 0 "Bearer abc"
      = .proceed "u1" "user" :=
  ⟨(authMiddleware_request_cases (fun _ => .malformed "x") "s3cret" 0 "").1 rfl,
   (authMiddleware_request_cases (fun _ => .malformed "x") "s3cret" 0 "Token abc").2.1
     (by decide) (by decide),
   (authMiddleware_request_cases (fun _ => .malformed "x") "s3cret" 0 "Bearer abc").2.2.1
     (by decide) (by decide) (by decide) (by decide),
   (authMiddleware_request_cases
       (fun _ => .signed ⟨"u1", "ann@x.com", "user", 100, 0, "go-firebase-api"⟩ "s3cret")
       "s3cret" 0 "Bearer abc").2.2.2.1
     ⟨"u1", "ann@x.com", "user", 100, 0, "go-firebase-api"⟩
     (by decide) (by decide) (by decide) (by decide)⟩

/-- C5: on the admin route pipeline, a request that passes the auth
middleware with a non-`admin` role is rejected 403; an exact `admin` match
continues; the comparison is plain string equality; and a context with no
role entry is likewise rejected 403. -/
theorem adminRoute_role_check (decode : String → Token) (secretKey : String)
    (now : Int) (authHeader : String) (uid : String) (r : Role) :
    (AuthMiddleware decode secretKey now authHeader = .proceed uid r → r ≠ "admin" →
      adminPipeline decode secretKey now authHeader "admin"
        = .reject 403 "You do not have permission to access this resource")
    ∧ (AuthMiddleware decode secretKey now authHeader = .proceed uid r → r = "admin" →
      adminPipeline decode secretKey now authHeader "admin" = .proceed)
    ∧ RoleAuthMiddleware "admin" (fun _ => none)
        = .reject 403 "User role not found in token" := by
  have hctx : authCtx uid r "userRole" = some (.vRole r) := by
    simp [authCtx]
  refine ⟨fun h hne => ?_, fun h he => ?_, rfl⟩
  · simp only [adminPipeline]
    rw [h]
    simp only [RoleAuthMiddleware, hctx]
    rw [if_pos hne]
  · simp only [adminPipeline]
    rw [h]
    simp only [RoleAuthMiddleware, hctx]
    rw [if_neg (by simpa using he)]

/-- Witness for C5: a concrete valid token carrying role `user` is rejected
403 on the admin pipeline, and one carrying role `admin` continues. -/
theorem adminRoute_role_check_witness :
    adminPipeline
        (fun _ => .signed ⟨"u1", "ann@x.com", "user", 100, 0, "go-firebase-api"⟩ "s3cret")
        "s3cret" 0 "Bearer abc" "admin"
      = .reject 403 "You do not have permission to access this resource"
    ∧ adminPipeline
        (fun _ => .signed ⟨"u2", "bob@x.com", "admin", 100, 0, "go-firebase-api"⟩ "s3cret")
        "s3cret" 0 "Bearer abc" "admin"
      = .proceed :=
  ⟨(adminRoute_role_check
      (fun _ => .signed ⟨"u1", "ann@x.com", "user", 100, 0, "go-firebase-api"⟩ "s3cret")
      "s3cret" 0 "Bearer abc" "u1" "user").1 (by decide) (by decide),
   (adminRoute_role_check
      (fun _ => .signed ⟨"u2", "bob@x.com", "admin", 100, 0, "go-firebase-api"⟩ "s3cret")
      "s3cret" 0 "Bearer abc" "u2" "admin").2.1 (by decide) rfl⟩

/-- C9: whenever the auth middleware continues, the context it populated
holds a value of the role type under `userRole`, so the role middleware's
type-assertion failure branch (status 500) is unreachable for any required
role. -/
theorem roleCheck_type_branch_unreachable (decode : String → Token)
    (secretKey : String) (now : Int) (authHeader : String) (uid : String) (r : Role)
    (h : AuthMiddleware decode secretKey now authHeader = .proceed uid r) :
    ∀ requiredRole : String,
      RoleResult.code (RoleAuthMiddleware requiredRole (authCtx uid r)) ≠ some 500
      ∧ RoleResult.code (adminPipeline decode secretKey now authHeader requiredRole)
          ≠ some 500 := by
  intro rr
  have hctx : authCtx uid r "userRole" = some (.vRole r) := by
    simp [authCtx]
  have hrole : RoleResult.code (RoleAuthMiddleware rr (authCtx uid r)) ≠ some 500 := by
    simp only [RoleAuthMiddleware, hctx]
    split <;> simp [RoleResult.code]
  refine ⟨hrole, ?_⟩
  simp only [adminPipeline]
  rw [h]
  exact hrole

/-- Witness for C9: a concrete request whose valid token carries role
`user`; neither the role middleware on the resulting context nor the whole
admin pipeline can answer 500. -/
theorem roleCheck_type_branch_unreachable_witness :
    RoleResult.code (RoleAuthMiddleware "admin" (authCtx "u1" "user")) ≠ some 500
    ∧ RoleResult.code
        (adminPipeline
          (fun _ => .signed ⟨"u1", "ann@x.com", "user", 100, 0, "go-firebase-api"⟩ "s3cret")
          "s3cret" 0 "Bearer abc" "admin")
        ≠ some 500 :=
  roleCheck_type_branch_unreachable
    (fun _ => .signed ⟨"u1", "ann@x.com", "user", 100, 0, "go-firebase-api"⟩ "s3cret")
    "s3cret" 0 "Bearer abc" "u1" "user" (by decide) "admin"

/-- C7 counterexample: the name `"A"` has length 1, which lies within the
claimed accepted range 1–100, yet the validation tags
(`required,min=2,max=100`) reject it. -/
theorem validateName_length_one_rejected :
    String.length "A" = 1 ∧ (1 ≤ String.length "A" ∧ String.length "A" ≤ 100)
    ∧ validateName "A" = false := by decide

/-- C7 amended: name validation accepts exactly names of length 2 through
100 — so an absent (empty) name or one outside 2–100 fails validation. -/
theorem validateName_accepts_exactly_2_to_100 (name : String) :
    validateName name = true ↔ 2 ≤ name.length ∧ name.length ≤ 100 := by
  constructor
  · intro h
    simp only [validateName, Bool.and_eq_true, decide_eq_true_eq] at h
    exact ⟨h.1.2, h.2⟩
  · rintro ⟨h2, h3⟩
    have hne : name ≠ "" := by
      intro he
      rw [he] at h2
      exact absurd h2 (by decide)
    simp only [validateName, Bool.and_eq_true, decide_eq_true_eq]
    exact ⟨⟨hne, h2⟩, h3⟩

/-- All-or-nothing decoding of a document list: `some` of all the decoded
users, in order, when every document decodes, and `none` otherwise. -/
def decodeAll : List StoredDoc → Option (List User)
  | [] => some []
  | d :: rest =>
    match decodeDoc d, decodeAll rest with
    | some u, some us => some (u :: us)
    | _, _ => none

/-- The GetAllUsers loop in its general accumulator form: it answers the
concatenation of the accumulator and all decoded users when every document
decodes, and the internal decode error otherwise. -/
theorem getAllUsersLoop_eq (docs : List StoredDoc) (acc : List User) :
    getAllUsersLoop acc docs =
      match decodeAll docs with
      | some users => .ok (acc ++ users)
      | none => .error (NewInternalServerError "Failed to process user data") := by
  induction docs generalizing acc with
  | nil => simp [getAllUsersLoop, decodeAll]
  | cons d rest ih =>
    cases hd : d.decoded with
    | none =>
      cases hrest : decodeAll rest <;>
        simp [getAllUsersLoop, hd, decodeAll, decodeDoc, hrest]
    | some data =>
      simp only [getAllUsersLoop, hd]
      rw [ih]
      cases hrest : decodeAll rest <;>
        simp [decodeAll, decodeDoc, hd, hrest]

/-- When every stored document decodes, `decodeAll` yields exactly the
decoded users, which `filterMap` enumerates. -/
theorem decodeAll_of_all_some (docs : List StoredDoc)
    (h : ∀ d ∈ docs, d.decoded ≠ none) :
    decodeAll docs = some (docs.filterMap decodeDoc) := by
  induction docs with
  | nil => simp [decodeAll]
  | cons d rest ih =>
    cases hd : d.decoded with
    | none => exact absurd hd (h d (by simp))
    | some data =>
      have hrest := ih fun e he => h e (by simp [he])
      simp [decodeAll, decodeDoc, hd, hrest, List.filterMap_cons]

/-- When some stored document fails to decode, `decodeAll` fails. -/
theorem decodeAll_of_some_none (docs : List StoredDoc)
    (h : ∃ d ∈ docs, d.decoded = none) :
    decodeAll docs = none := by
  induction docs with
  | nil => simp at h
  | cons d rest ih =>
    rcases h with ⟨e, he, hdec⟩
    rcases List.mem_cons.mp he with rfl | hmem
    · cases hrest : decodeAll rest <;>
        simp [decodeAll, decodeDoc, hdec, hrest]
    · cases hd : d.decoded with
      | none =>
        cases hrest : decodeAll rest <;>
          simp [decodeAll, decodeDoc, hd, hrest]
      | some data => simp [decodeAll, decodeDoc, hd, ih ⟨e, hmem, hdec⟩]

/-- C8: `GetAllUsers` is all-or-nothing — if every stored document decodes,
it returns the full list of decoded users (in order); if any single
document fails to decode, it returns the internal decode error and no
partial list. -/
theorem getAllUsers_all_or_nothing (docs : List StoredDoc) :
    ((∀ d ∈ docs, d.decoded ≠ none) →
      GetAllUsers docs = .ok (docs.filterMap decodeDoc))
    ∧ ((∃ d ∈ docs, d.decoded = none) →
      GetAllUsers docs = .error (NewInternalServerError "Failed to process user data")) := by
  constructor
  · intro h
    rw [GetAllUsers, getAllUsersLoop_eq, decodeAll_of_all_some docs h]
    simp
  · intro h
    rw [GetAllUsers, getAllUsersLoop_eq, decodeAll_of_some_none docs h]

/-- Witness for C8: a two-document collection where both decode yields the
full two-user list; replacing the second document's data by an undecodable
record aborts the whole listing with the internal error. -/
theorem getAllUsers_all_or_nothing_witness :
    GetAllUsers
        [⟨"d1", some ⟨"Ann", "ann@x.com", "user"⟩⟩, ⟨"d2", some ⟨"Bob", "bob@x.com", "admin"⟩⟩]
      = .ok [⟨"d1", "Ann", "ann@x.com", "user"⟩, ⟨"d2", "Bob", "bob@x.com", "admin"⟩]
    ∧ GetAllUsers [⟨"d1", some ⟨"Ann", "ann@x.com", "user"⟩⟩, ⟨"d2", none⟩]
      = .error (NewInternalServerError "Failed to process user data") :=
  ⟨(getAllUsers_all_or_nothing
      [⟨"d1", some ⟨"Ann", "ann@x.com", "user"⟩⟩, ⟨"d2", some ⟨"Bob", "bob@x.com", "admin"⟩⟩]).1
      (by decide),
   (getAllUsers_all_or_nothing
      [⟨"d1", some ⟨"Ann", "ann@x.com", "user"⟩⟩, ⟨"d2", none⟩]).2
      ⟨⟨"d2", none⟩, by decide, rfl⟩⟩
